import Mathlib

/-!
Shallow embedding of the `XRegistry` device-registry/router from
`custom_components/sonoff/core/ewelink/__init__.py`.

Python dicts holding device records are modelled as structures with
`Option` fields (`none` = key absent); the registry `self.devices` is an
insertion-ordered association list.  Handlers are pure functions from a
registry state and a message to a result `HRes` holding the new state,
the ordered list of observable effects (bus publications and spawned
tasks), and `some err` when the Python handler would raise (a `KeyError`
escaping to the dispatcher); on a raise the state holds the mutations
performed before the raising read, exactly as in Python.

External collaborators that the source imports from outside this module
(`decrypt_msg`, `setup_diy`, `get_spec`, `POW_UI_ACTIVE`) are taken as
function parameters, matching the spec's "external collaborators"
boundary.  The values stored under an `online` key are restricted to the
Python values `None`/`True`/`False` (`OV`), the only ones the protocol
uses; on that domain Python `==` and `is` coincide with structural
equality.  Config overrides merged by `setup_devices` are modelled on
the one field the module reads back, `devicekey`.
-/

namespace Sonoff

/-- Python value of an `online` entry: `None`, `True` or `False`. -/
inductive OV
  | null
  | tru
  | fls
deriving DecidableEq, Repr

/-- A `params` dict: an optional `online` entry plus the remaining
telemetry entries (opaque string pairs). -/
structure Params where
  online : Option OV := none
  others : List (String × String) := []
deriving DecidableEq, Repr

/-- Python truthiness of a params dict: non-empty. -/
def paramsTruthy (p : Params) : Bool :=
  p.online.isSome || !p.others.isEmpty

/-- Python truthiness of `msg.get("params")`: `None` and `{}` are falsy. -/
def paramsFalsy : Option Params → Bool
  | none => true
  | some p => !paramsTruthy p

/-- A device record dict.  `none` in an `Option` field means the key is
absent from the dict. -/
structure Device where
  deviceid : String
  online : Option OV := none
  host : Option String := none
  devicekey : Option String := none
  pow_ts : Option Nat := none
  extra_uiid : Option Nat := none
deriving DecidableEq, Repr

/-- An inbound local-transport message (`msg` in `local_update`):
device id, optional decoded `params`, optional source `host`, and the
raw encrypted payload fed to `decrypt_msg`. -/
structure LocalMsg where
  deviceid : String
  params : Option Params := none
  host : Option String := none
  payload : String := ""
deriving DecidableEq, Repr

/-- An inbound cloud-transport message (`msg` in `cloud_update`); the
source reads `msg["params"]` unconditionally. -/
structure CloudMsg where
  deviceid : String
  params : Params
deriving DecidableEq, Repr

/-- A value stored in `self.devices`: either a proper device record, or
a raw local message stored as a placeholder after a decrypt failure
(`self.devices[did] = msg`). -/
inductive RegEntry
  | dev (d : Device)
  | raw (m : LocalMsg)
deriving DecidableEq, Repr

/-- A per-device entry of `self.config["devices"]`, restricted to the
`devicekey` override that this module reads back. -/
structure ConfigEntry where
  devicekey : Option String := none
deriving DecidableEq, Repr

/-- State of `self.task` (the activation-loop task):
no task yet, a running task, or a finished task (`task.done()`). -/
inductive TaskStatus
  | noTask
  | running
  | done
deriving DecidableEq, Repr

/-- Registry state: the devices dict, `self.config` (which may be the
class default `None`), and the activation-loop task slot. -/
structure RegState where
  devices : List (String × RegEntry)
  config : Option (List (String × ConfigEntry)) := none
  task : TaskStatus := .noTask
deriving DecidableEq, Repr

/-- Observable effects of a handler, in emission order. -/
inductive Effect
  | publish (signal : String) (payload : Option Params)
  | addEntities (count : Nat)
  | spawnCheckOffline (deviceid : String)
deriving DecidableEq, Repr

/-- Result of running a handler: resulting state, emitted effects, and
`some e` when the Python code raised (state/effects are those produced
before the raise). -/
structure HRes where
  st : RegState
  effects : List Effect
  err : Option String
deriving DecidableEq, Repr

/-- Lookup `d.get(k)` on an insertion-ordered dict. -/
def dictGet (l : List (String × α)) (k : String) : Option α :=
  match l with
  | [] => none
  | (k2, v) :: rest => if k2 = k then some v else dictGet rest k

/-- Assignment `d[k] = v` on an insertion-ordered dict: overwrite in place, else
append. -/
def dictSet (l : List (String × α)) (k : String) (v : α) : List (String × α) :=
  match l with
  | [] => [(k, v)]
  | (k2, v2) :: rest =>
    if k2 = k then (k, v) :: rest else (k2, v2) :: dictSet rest k v

/-- Handler `XRegistry.cloud_update(msg)`: look up the device; unknown ids are
logged and dropped.  An explicit `online` in params is de-duplicated
against the stored value, else stored; with no `online` in params a
stored `false` is flipped to `true`; reading a missing `online` key
raises `KeyError`.  All non-discarded, non-raising paths publish the
per-device signal with the params. -/
def cloud_update (st : RegState) (msg : CloudMsg) : HRes :=
  let did := msg.deviceid
  match dictGet st.devices did with
  | none => ⟨st, [], none⟩
  | some (RegEntry.raw _) => ⟨st, [], some "KeyError: online"⟩
  | some (RegEntry.dev device) =>
    let params := msg.params
    match params.online with
    | some v =>
      match device.online with
      | none => ⟨st, [], some "KeyError: online"⟩
      | some cur =>
        if cur = v then ⟨st, [], none⟩
        else
          ⟨{ st with devices :=
              dictSet st.devices did (RegEntry.dev { device with online := some v }) },
            [Effect.publish did (some params)], none⟩
    | none =>
      match device.online with
      | none => ⟨st, [], some "KeyError: online"⟩
      | some cur =>
        if cur = OV.fls then
          ⟨{ st with devices :=
              dictSet st.devices did (RegEntry.dev { device with online := some OV.tru }) },
            [Effect.publish did (some params)], none⟩
        else ⟨st, [Effect.publish did (some params)], none⟩

/-- The best-effort config-override merge of `setup_devices`:
`device.update(self.config["devices"][deviceid])` under `try/except`,
restricted to the `devicekey` field this module reads back; any lookup
failure (config `None`, id missing) keeps the device unchanged. -/
def applyConfig (cfg : Option (List (String × ConfigEntry))) (did : String)
    (d : Device) : Device :=
  match cfg with
  | none => d
  | some c =>
    match dictGet c did with
    | none => d
    | some e =>
      match e.devicekey with
      | none => d
      | some k => { d with devicekey := some k }

/-- Lookup `self.config["devices"][did]["devicekey"]` as attempted by
`local_update`; `none` when any step of the chain raises. -/
def configKey (cfg : Option (List (String × ConfigEntry))) (did : String) :
    Option String :=
  match cfg with
  | none => none
  | some c =>
    match dictGet c did with
    | none => none
    | some e => e.devicekey

/-- Operation `XRegistry.setup_devices(devices)`: per device, best-effort config
merge, read `device["extra"]["uiid"]` (raising `KeyError` when absent,
which aborts the rest of the batch), build the entity list via the
external `get_spec` factory (modelled by its length), publish
`"add_entities"`, and insert the merged record into the registry. -/
def setup_devices (getSpec : Device → Nat) (st : RegState) (ds : List Device) :
    RegState × List Effect × Option String :=
  match ds with
  | [] => (st, [], none)
  | d0 :: rest =>
    let d := applyConfig st.config d0.deviceid d0
    match d.extra_uiid with
    | none => (st, [], some "KeyError: uiid")
    | some _ =>
      let n := getSpec d
      let st2 := { st with devices := dictSet st.devices d.deviceid (RegEntry.dev d) }
      let r := setup_devices getSpec st2 rest
      (r.1, Effect.addEntities n :: r.2.1, r.2.2)

/-- Device id of a registry entry (used as the `check_offline` target). -/
def entryId : RegEntry → String
  | .dev d => d.deviceid
  | .raw m => m.deviceid

/-- Assignment `device["host"] = msg.get("host")` on a registry entry. -/
def entrySetHost (e : RegEntry) (h : Option String) : RegEntry :=
  match e with
  | .dev d => .dev { d with host := h }
  | .raw m => .raw { m with host := h }

/-- Tail of `local_update` shared by all its branches: an `online` key
in params signals connectivity (Python `None` schedules the
offline-confirmation probe, `False` publishes the bare per-device
signal, anything else just returns); otherwise the source host is
recorded onto the entry and the per-device signal is published with the
params. -/
def localCommon (st : RegState) (did : String) (key : String) (entry : RegEntry)
    (p : Params) (eff0 : List Effect) (hostv : Option String) : HRes :=
  match p.online with
  | some OV.null => ⟨st, eff0 ++ [Effect.spawnCheckOffline (entryId entry)], none⟩
  | some OV.fls => ⟨st, eff0 ++ [Effect.publish did none], none⟩
  | some OV.tru => ⟨st, eff0, none⟩
  | none =>
    ⟨{ st with devices := dictSet st.devices key (entrySetHost entry hostv) },
      eff0 ++ [Effect.publish did (some p)], none⟩

/-- The unknown-device tail of `local_update`: build a provisional
record via the external `setup_diy` factory, register it through
`setup_devices([device])` (whose mutations alias the local variable, so
the merged record is the one the common tail keeps mutating), then run
the common tail. -/
def localSetupNew (setupDiy : LocalMsg → Device) (getSpec : Device → Nat)
    (st : RegState) (did : String) (msg : LocalMsg) (p : Params) : HRes :=
  let d0 := setupDiy msg
  let r := setup_devices getSpec st [d0]
  match r.2.2 with
  | some e => ⟨r.1, r.2.1, some e⟩
  | none =>
    let merged := applyConfig st.config d0.deviceid d0
    localCommon r.1 did d0.deviceid (RegEntry.dev merged) p r.2.1 msg.host

/-- Handler `XRegistry.local_update(msg)`.  Unknown device: with falsy params,
try decrypting with the configured key, storing the raw message as a
placeholder and stopping on any failure, else register the decoded
device just-in-time; known device with falsy params: require a
`devicekey` on the record and decrypt, silently stopping on failure;
then the common online/telemetry tail.  `decryptFn msg key = none`
models `decrypt_msg` raising. -/
def local_update (decryptFn : LocalMsg → String → Option Params)
    (setupDiy : LocalMsg → Device) (getSpec : Device → Nat)
    (st : RegState) (msg : LocalMsg) : HRes :=
  let did := msg.deviceid
  match dictGet st.devices did with
  | none =>
    if paramsFalsy msg.params then
      match configKey st.config did with
      | none =>
        ⟨{ st with devices := dictSet st.devices did (RegEntry.raw msg) }, [], none⟩
      | some key =>
        match decryptFn msg key with
        | none =>
          ⟨{ st with devices := dictSet st.devices did (RegEntry.raw msg) }, [], none⟩
        | some p => localSetupNew setupDiy getSpec st did { msg with params := some p } p
    else
      match msg.params with
      | some p => localSetupNew setupDiy getSpec st did msg p
      | none => ⟨st, [], none⟩
  | some entry =>
    if paramsFalsy msg.params then
      match entry with
      | RegEntry.raw _ => ⟨st, [], none⟩
      | RegEntry.dev d =>
        match d.devicekey with
        | none => ⟨st, [], none⟩
        | some key =>
          match decryptFn msg key with
          | none => ⟨st, [], none⟩
          | some p => localCommon st did did entry p [] msg.host
    else
      match msg.params with
      | some p => localCommon st did did entry p [] msg.host
      | none => ⟨st, [], none⟩

/-- A transport invocation or spawned task made by `XRegistry.send`, in
call order.  `cloudSend none (some 0)` is the zero-payload
status-forcing query `self.cloud.send(device, timeout=0)`;
`cloudSend (some p) none` is a full-params cloud send with the default
timeout. -/
inductive SendEff
  | localSend (p : Params) (timeout : Nat)
  | cloudSend (p : Option Params) (timeout : Option Nat)
  | spawnOffline (deviceid : String)
deriving DecidableEq, Repr

/-- Python truthiness of `device.get('host')` (empty string is falsy). -/
def strTruthy : Option String → Bool
  | some s => !s.isEmpty
  | none => false

/-- Python truthiness of `device.get('online')` on the `OV` domain. -/
def ovTruthy : Option OV → Bool
  | some OV.tru => true
  | _ => false

/-- Operation `XRegistry.send(device, params, params_lan, query_cloud)`:
availability flags are read once at entry; both available → local send
with timeout 1, falling back to a cloud send when the local outcome is
not `"online"`, then either the offline-confirmation probe (cloud also
not `"online"`) or, when `query_cloud`, the zero-payload status query;
local only → local send with timeout 5 plus probe on failure; cloud
only → cloud send plus optional query; neither → no-op.  `localRes` /
`cloudRes` are the outcomes the transports return for their (at most
one each, before the query) sends. -/
def send (localOnline cloudOnline : Bool) (localRes cloudRes : String)
    (device : Device) (params : Params) (params_lan : Option Params)
    (query_cloud : Bool) : List SendEff :=
  let can_local := localOnline && strTruthy device.host
  let can_cloud := cloudOnline && ovTruthy device.online
  let lanp :=
    match params_lan with
    | some q => if paramsTruthy q then q else params
    | none => params
  if can_local && can_cloud then
    if localRes = "online" then [SendEff.localSend lanp 1]
    else if cloudRes = "online" then
      if query_cloud then
        [SendEff.localSend lanp 1, SendEff.cloudSend (some params) none,
          SendEff.cloudSend none (some 0)]
      else
        [SendEff.localSend lanp 1, SendEff.cloudSend (some params) none]
    else
      [SendEff.localSend lanp 1, SendEff.cloudSend (some params) none,
        SendEff.spawnOffline device.deviceid]
  else if can_local then
    if localRes = "online" then [SendEff.localSend lanp 5]
    else [SendEff.localSend lanp 5, SendEff.spawnOffline device.deviceid]
  else if can_cloud then
    if cloudRes = "online" && query_cloud then
      [SendEff.cloudSend (some params) none, SendEff.cloudSend none (some 0)]
    else [SendEff.cloudSend (some params) none]
  else []

/-- Hook `XRegistry.cloud_connected()`: publish a bare per-device signal for
every registered id, then start the activation-loop task when
`not self.task or self.task.done()`.  The returned `Bool` records
whether `asyncio.create_task` was called. -/
def cloud_connected (st : RegState) : RegState × List Effect × Bool :=
  let effs := st.devices.map (fun kv => Effect.publish kv.1 none)
  if st.task = TaskStatus.running then (st, effs, false)
  else ({ st with task := TaskStatus.running }, effs, true)

/-- Membership test of the `POW_UI_ACTIVE` filter in `pow_helper`:
`"extra" in device and device["extra"]["uiid"] in POW_UI_ACTIVE`. -/
def powEligibleP (pow : Nat → Option (Nat × Params)) (d : Device) : Bool :=
  match d.extra_uiid with
  | some u => (pow u).isSome
  | none => false

/-- The eligible-device comprehension computed once when `pow_helper`
starts. -/
def powEligible (pow : Nat → Option (Nat × Params)) (ds : List Device) :
    List Device :=
  ds.filter (powEligibleP pow)

/-- One device of a `pow_helper` sweep: skip when `device["online"]` is
falsy (raising `KeyError` when the key is absent) or the `pow_ts`
deadline has not elapsed; otherwise set `pow_ts = ts + dt` and send the
activation params via cloud with timeout 0. -/
def powSweepDev (pow : Nat → Option (Nat × Params)) (ts : Nat) (d : Device) :
    Except String (Device × List SendEff) :=
  match d.online with
  | none => Except.error "KeyError: online"
  | some ov =>
    if ov ≠ OV.tru ∨ d.pow_ts.getD 0 > ts then Except.ok (d, [])
    else
      match d.extra_uiid with
      | none => Except.error "KeyError: extra"
      | some u =>
        match pow u with
        | none => Except.error "KeyError: pow"
        | some (dt, p2) =>
          Except.ok ({ d with pow_ts := some (ts + dt) },
            [SendEff.cloudSend (some p2) (some 0)])

/-- One full sweep of `pow_helper` over the captured eligible list; a
raise aborts the rest of the sweep, keeping earlier mutations. -/
def powSweep (pow : Nat → Option (Nat × Params)) (ts : Nat) :
    List Device → List Device × List SendEff × Option String
  | [] => ([], [], none)
  | d :: rest =>
    match powSweepDev pow ts d with
    | Except.error e => (d :: rest, [], some e)
    | Except.ok (d2, s1) =>
      let r := powSweep pow ts rest
      (d2 :: r.1, s1 ++ r.2.1, r.2.2)

/-- The `while True` body of `pow_helper`, run for `fuel` iterations;
`env` supplies per-iteration `(self.cloud.online, time.time())`
observations (an offline iteration just sleeps and re-checks). -/
def powLoop (pow : Nat → Option (Nat × Params)) :
    Nat → List (Bool × Nat) → List Device →
      List Device × List SendEff × Option String
  | 0, _, ds => (ds, [], none)
  | Nat.succ _, [], ds => (ds, [], none)
  | Nat.succ n, (conline, ts) :: env, ds =>
    if conline then
      let s := powSweep pow ts ds
      match s.2.2 with
      | some e => (s.1, s.2.1, some e)
      | none =>
        let r := powLoop pow n env s.1
        (r.1, s.2.1 ++ r.2.1, r.2.2)
    else powLoop pow n env ds

/-- Loop `XRegistry.pow_helper()`: compute the eligible subset once from the
captured device list; when empty, return at once without rescheduling;
otherwise run the sweep loop.  `pow` is the external `POW_UI_ACTIVE`
table mapping a uiid to `(dt, activation params)`. -/
def pow_helper (pow : Nat → Option (Nat × Params)) (fuel : Nat)
    (env : List (Bool × Nat)) (ds : List Device) :
    List Device × List SendEff × Option String :=
  let eligible := powEligible pow ds
  if eligible.isEmpty then (ds, [], none)
  else powLoop pow fuel env eligible

/-! Concrete inputs used by counterexamples and witnesses. -/

/-- A device record whose `online` key is absent (never contacted). -/
def devUnset : Device := { deviceid := "A1" }

/-- A registry holding only `devUnset`. -/
def stUnset : RegState := { devices := [("A1", RegEntry.dev devUnset)] }

/-- A cloud message for `"A1"` whose params carry no `online` key. -/
def msgSwitch : CloudMsg := { deviceid := "A1", params := { others := [("switch", "on")] } }

/-- A device record stored with `online = False`. -/
def devOff : Device := { deviceid := "A1", online := some OV.fls }

/-- A registry holding only `devOff`. -/
def stOff : RegState := { devices := [("A1", RegEntry.dev devOff)] }

/-- A device record stored with `online = True` and a host. -/
def devOn : Device :=
  { deviceid := "A1", online := some OV.tru, host := some "192.168.1.5" }

/-- A registry holding only `devOn`. -/
def stOn : RegState := { devices := [("A1", RegEntry.dev devOn)] }

/-- A cloud message for `"A1"` carrying `online = True`. -/
def msgOnTrue : CloudMsg := { deviceid := "A1", params := { online := some OV.tru } }

/-- An encrypted local broadcast from the unknown device `"B1"`. -/
def msgEnc : LocalMsg := { deviceid := "B1", payload := "ciphertext" }

/-- A registry with no devices whose config holds a key for `"B1"`. -/
def stCfg : RegState :=
  { devices := [], config := some [("B1", { devicekey := some "k1" })] }

/-- A decrypt collaborator that always fails (raises). -/
def decryptFail : LocalMsg → String → Option Params := fun _ _ => none

/-- A decrypt collaborator that always yields a fixed telemetry params. -/
def decryptOk : LocalMsg → String → Option Params :=
  fun _ _ => some { others := [("switch", "on")] }

/-- A `setup_diy` collaborator keeping the message's device id and
stamping a uiid. -/
def diyBasic : LocalMsg → Device :=
  fun m => { deviceid := m.deviceid, online := some OV.tru, extra_uiid := some 1 }

/-- A `get_spec` collaborator producing two entity constructors. -/
def specTwo : Device → Nat := fun _ => 2

/-- A local telemetry message for the known device `"A1"`. -/
def msgLocalNull : LocalMsg :=
  { deviceid := "A1", params := some { online := some OV.null }, host := some "10.0.0.2" }

/-- A local message for `"A1"` carrying `online = False`. -/
def msgLocalFalse : LocalMsg :=
  { deviceid := "A1", params := some { online := some OV.fls }, host := some "10.0.0.2" }

/-- A local message for `"A1"` carrying `online = True`. -/
def msgLocalTrue : LocalMsg :=
  { deviceid := "A1", params := some { online := some OV.tru }, host := some "10.0.0.2" }

/-- Telemetry params with no `online` key. -/
def paramsSwitch : Params := { others := [("switch", "on")] }

/-- A pow-capable device: uiid 32, online, deadline elapsed. -/
def devPow : Device :=
  { deviceid := "P1", online := some OV.tru, pow_ts := some 0, extra_uiid := some 32 }

/-- A `POW_UI_ACTIVE` table holding uiid 32 with a 30-unit refresh. -/
def powTable : Nat → Option (Nat × Params) :=
  fun u => if u = 32 then some (30, paramsSwitch) else none

/-- A device with neither host nor `online`, unreachable both ways. -/
def devDark : Device := { deviceid := "D1" }

/-- Recognizer for `"add_entities"` publications. -/
def isAddEntities : Effect → Bool
  | .addEntities _ => true
  | _ => false

/-- Recognizer for a cloud send carrying a params payload (as opposed
to the zero-payload status query). -/
def isCloudParamSend : SendEff → Bool
  | .cloudSend (some _) _ => true
  | _ => false

/-! Dictionary lemmas. -/

/-- Reading back the key just written. -/
theorem dictGet_dictSet_self (l : List (String × α)) (k : String) (v : α) :
    dictGet (dictSet l k v) k = some v := by
  induction l with
  | nil => simp [dictGet, dictSet]
  | cons hd tl ih =>
    by_cases h : hd.1 = k
    · simp [dictGet, dictSet, h]
    · simp [dictGet, dictSet, h, ih]

/-- Writing an absent key appends it. -/
theorem dictSet_of_get_none (l : List (String × α)) (k : String) (v : α)
    (h : dictGet l k = none) : dictSet l k v = l ++ [(k, v)] := by
  induction l with
  | nil => simp [dictSet]
  | cons hd tl ih =>
    by_cases hk : hd.1 = k
    · simp [dictGet, hk] at h
    · simp [dictGet, hk] at h
      simp [dictSet, hk, ih h]

/-- Writing a present key preserves the dict's length. -/
theorem length_dictSet_of_get_some (l : List (String × α)) (k : String) (v : α)
    (h : (dictGet l k).isSome = true) : (dictSet l k v).length = l.length := by
  induction l with
  | nil => simp [dictGet] at h
  | cons hd tl ih =>
    by_cases hk : hd.1 = k
    · simp [dictSet, hk]
    · simp [dictGet, hk] at h
      simp [dictSet, hk, ih h]

/-- Writing an absent key grows the dict by exactly one entry. -/
theorem length_dictSet_of_get_none (l : List (String × α)) (k : String) (v : α)
    (h : dictGet l k = none) : (dictSet l k v).length = l.length + 1 := by
  rw [dictSet_of_get_none _ _ _ h]
  simp

/-- The config merge only touches `devicekey`: the device id survives. -/
theorem applyConfig_deviceid (cfg : Option (List (String × ConfigEntry)))
    (did : String) (d : Device) : (applyConfig cfg did d).deviceid = d.deviceid := by
  unfold applyConfig
  repeat' split
  all_goals rfl

/-- The config merge only touches `devicekey`: `extra`/uiid survives. -/
theorem applyConfig_extra_uiid (cfg : Option (List (String × ConfigEntry)))
    (did : String) (d : Device) : (applyConfig cfg did d).extra_uiid = d.extra_uiid := by
  unfold applyConfig
  repeat' split
  all_goals rfl

/-! Claim theorems. -/

/-- Claim C1, counterexample: for a registered device whose `online`
key is absent, a cloud update without an `online` field raises
`KeyError` out of the handler — it does not set `online = true` and
publishes nothing. -/
theorem cloud_update_unset_online_keyerror :
    (cloud_update stUnset msgSwitch).effects = [] ∧
    (cloud_update stUnset msgSwitch).st = stUnset ∧
    (cloud_update stUnset msgSwitch).err = some "KeyError: online" :=
  ⟨rfl, rfl, rfl⟩

/-- Claim C1 as amended: for a device whose stored `online` is `False`,
a cloud update without an `online` field sets `online = true` and
publishes the per-device signal exactly once. -/
theorem cloud_update_stored_false_flips_true (st : RegState) (msg : CloudMsg)
    (d : Device)
    (hd : dictGet st.devices msg.deviceid = some (RegEntry.dev d))
    (hon : d.online = some OV.fls)
    (hp : msg.params.online = none) :
    (cloud_update st msg).effects = [Effect.publish msg.deviceid (some msg.params)] ∧
    dictGet (cloud_update st msg).st.devices msg.deviceid
      = some (RegEntry.dev { d with online := some OV.tru }) ∧
    (cloud_update st msg).err = none := by
  simp [cloud_update, hd, hp, hon, dictGet_dictSet_self]

/-- Witness for the amended C1 at the concrete `"A1"` scenario. -/
theorem cloud_update_stored_false_flips_true_witness :
    (cloud_update stOff msgSwitch).effects
      = [Effect.publish msgSwitch.deviceid (some msgSwitch.params)] ∧
    dictGet (cloud_update stOff msgSwitch).st.devices msgSwitch.deviceid
      = some (RegEntry.dev { devOff with online := some OV.tru }) ∧
    (cloud_update stOff msgSwitch).err = none :=
  cloud_update_stored_false_flips_true stOff msgSwitch devOff (by decide) (by decide)
    (by decide)

/-- Claim C4: a cloud update whose `online` equals the stored value is
a complete no-op — no publish, no mutation, no raise. -/
theorem cloud_update_same_online_is_noop (st : RegState) (msg : CloudMsg)
    (d : Device) (x : OV)
    (hd : dictGet st.devices msg.deviceid = some (RegEntry.dev d))
    (hdx : d.online = some x) (hpx : msg.params.online = some x) :
    cloud_update st msg = ⟨st, [], none⟩ := by
  simp [cloud_update, hd, hdx, hpx]

/-- Witness for C4 with `online = True` repeated for device `"A1"`. -/
theorem cloud_update_same_online_is_noop_witness :
    cloud_update stOn msgOnTrue = ⟨stOn, [], none⟩ :=
  cloud_update_same_online_is_noop stOn msgOnTrue devOn OV.tru (by decide) (by decide)
    (by decide)

/-- Claim C2, counterexample: a local message from an unknown device
with an undecryptable payload grows the registry from 0 to 1 entries
(the raw message is stored as a placeholder), refuting "device count
unchanged"; no signal is published. -/
theorem local_update_undecryptable_count_counterexample :
    ((local_update decryptFail diyBasic specTwo stCfg msgEnc).st.devices.length = 1) ∧
    (stCfg.devices.length = 0) ∧
    ((local_update decryptFail diyBasic specTwo stCfg msgEnc).effects = []) :=
  ⟨rfl, rfl, rfl⟩

/-- Claim C2 as amended: a local message from an unknown device whose
payload fails to decrypt with the configured key appends exactly one
placeholder entry (the raw message) under that id — the count grows by
one — and publishes nothing. -/
theorem local_update_undecryptable_stores_raw
    (decryptFn : LocalMsg → String → Option Params) (setupDiy : LocalMsg → Device)
    (getSpec : Device → Nat) (st : RegState) (msg : LocalMsg) (key : String)
    (hunk : dictGet st.devices msg.deviceid = none)
    (hp : msg.params = none)
    (hkey : configKey st.config msg.deviceid = some key)
    (hfail : decryptFn msg key = none) :
    (local_update decryptFn setupDiy getSpec st msg).st.devices
      = st.devices ++ [(msg.deviceid, RegEntry.raw msg)] ∧
    (local_update decryptFn setupDiy getSpec st msg).st.devices.length
      = st.devices.length + 1 ∧
    (local_update decryptFn setupDiy getSpec st msg).effects = [] ∧
    (local_update decryptFn setupDiy getSpec st msg).err = none := by
  simp [local_update, hunk, hp, hkey, hfail, paramsFalsy,
    dictSet_of_get_none _ _ _ hunk]

/-- Witness for the amended C2 at the concrete `"B1"` scenario. -/
theorem local_update_undecryptable_stores_raw_witness :
    (local_update decryptFail diyBasic specTwo stCfg msgEnc).st.devices
      = stCfg.devices ++ [(msgEnc.deviceid, RegEntry.raw msgEnc)] ∧
    (local_update decryptFail diyBasic specTwo stCfg msgEnc).st.devices.length
      = stCfg.devices.length + 1 ∧
    (local_update decryptFail diyBasic specTwo stCfg msgEnc).effects = [] ∧
    (local_update decryptFail diyBasic specTwo stCfg msgEnc).err = none :=
  local_update_undecryptable_stores_raw decryptFail diyBasic specTwo stCfg msgEnc "k1"
    (by decide) (by decide) (by decide) (by decide)

/-- Claim C5: for a known device, a local update whose params carry
`online = None` only schedules the offline-confirmation probe, and one
carrying `online = False` only publishes the bare per-device signal; in
both cases the state (hence the host) is untouched and no telemetry is
published. -/
theorem local_update_online_connectivity
    (decryptFn : LocalMsg → String → Option Params) (setupDiy : LocalMsg → Device)
    (getSpec : Device → Nat) (st : RegState) (msg : LocalMsg) (d : Device) (p : Params)
    (hd : dictGet st.devices msg.deviceid = some (RegEntry.dev d))
    (hp : msg.params = some p) :
    (p.online = some OV.null →
      local_update decryptFn setupDiy getSpec st msg
        = ⟨st, [Effect.spawnCheckOffline d.deviceid], none⟩) ∧
    (p.online = some OV.fls →
      local_update decryptFn setupDiy getSpec st msg
        = ⟨st, [Effect.publish msg.deviceid none], none⟩) := by
  constructor
  · intro h
    simp [local_update, hd, hp, paramsFalsy, paramsTruthy, h, localCommon, entryId]
  · intro h
    simp [local_update, hd, hp, paramsFalsy, paramsTruthy, h, localCommon]

/-- Witness for C5 with the probe (`online = None`) and the offline
publication (`online = False`) at device `"A1"`. -/
theorem local_update_online_connectivity_witness :
    ((msgLocalNull.params.getD {}).online = some OV.null →
      local_update decryptFail diyBasic specTwo stOn msgLocalNull
        = ⟨stOn, [Effect.spawnCheckOffline devOn.deviceid], none⟩) ∧
    ((msgLocalNull.params.getD {}).online = some OV.fls →
      local_update decryptFail diyBasic specTwo stOn msgLocalNull
        = ⟨stOn, [Effect.publish msgLocalNull.deviceid none], none⟩) :=
  local_update_online_connectivity decryptFail diyBasic specTwo stOn msgLocalNull devOn
    (msgLocalNull.params.getD {}) (by decide) (by decide)

/-- Claim C10: for a known device, a local update whose params carry
`online = True` is a complete no-op — no mutation, no probe, no
publication. -/
theorem local_update_online_true_is_noop
    (decryptFn : LocalMsg → String → Option Params) (setupDiy : LocalMsg → Device)
    (getSpec : Device → Nat) (st : RegState) (msg : LocalMsg) (d : Device) (p : Params)
    (hd : dictGet st.devices msg.deviceid = some (RegEntry.dev d))
    (hp : msg.params = some p) (ht : p.online = some OV.tru) :
    local_update decryptFn setupDiy getSpec st msg = ⟨st, [], none⟩ := by
  simp [local_update, hd, hp, paramsFalsy, paramsTruthy, ht, localCommon]

/-- Witness for C10 at device `"A1"`. -/
theorem local_update_online_true_is_noop_witness :
    local_update decryptFail diyBasic specTwo stOn msgLocalTrue = ⟨stOn, [], none⟩ :=
  local_update_online_true_is_noop decryptFail diyBasic specTwo stOn msgLocalTrue devOn
    (msgLocalTrue.params.getD {}) (by decide) (by decide) (by decide)

/-- Claim C3: with both transports available and the local send not
reporting `"online"`, exactly one cloud send carrying the full params
is made, and the zero-payload status query is issued iff `query_cloud`
holds and that cloud send reported `"online"`. -/
theorem send_both_falls_back_to_cloud_once
    (localRes cloudRes : String) (device : Device) (params : Params)
    (params_lan : Option Params) (query_cloud : Bool)
    (hl : strTruthy device.host = true) (hc : ovTruthy device.online = true)
    (hnl : localRes ≠ "online") :
    (send true true localRes cloudRes device params params_lan query_cloud).filter
        (fun e => isCloudParamSend e) = [SendEff.cloudSend (some params) none] ∧
    (SendEff.cloudSend none (some 0)
        ∈ send true true localRes cloudRes device params params_lan query_cloud
      ↔ query_cloud = true ∧ cloudRes = "online") := by
  by_cases hcr : cloudRes = "online" <;> by_cases hq : query_cloud = true <;>
    simp [send, hl, hc, hnl, hcr, hq, isCloudParamSend]

/-- Witness for C3: local times out, cloud reports online, query on. -/
theorem send_both_falls_back_to_cloud_once_witness :
    (send true true "timeout" "online" devOn paramsSwitch none true).filter
        (fun e => isCloudParamSend e) = [SendEff.cloudSend (some paramsSwitch) none] ∧
    (SendEff.cloudSend none (some 0)
        ∈ send true true "timeout" "online" devOn paramsSwitch none true
      ↔ true = true ∧ "online" = "online") :=
  send_both_falls_back_to_cloud_once "timeout" "online" devOn paramsSwitch none true
    (by decide) (by decide) (by decide)

/-- Claim C8: with neither transport available, `send` performs no
transport call, spawns nothing, and returns without raising (it is a
total function into the empty call list). -/
theorem send_neither_transport_is_noop (lo co : Bool) (localRes cloudRes : String)
    (device : Device) (params : Params) (params_lan : Option Params) (qc : Bool)
    (hl : (lo && strTruthy device.host) = false)
    (hc : (co && ovTruthy device.online) = false) :
    send lo co localRes cloudRes device params params_lan qc = [] := by
  simp [send, hl, hc]

/-- Witness for C8: both transports offline for a bare device. -/
theorem send_neither_transport_is_noop_witness :
    send false false "timeout" "timeout" devDark paramsSwitch none true = [] :=
  send_neither_transport_is_noop false false "timeout" "timeout" devDark paramsSwitch
    none true (by decide) (by decide)

/-- Claim C9: `cloud_connected` publishes a bare per-device signal for
every registered id (in registry order); when a loop task is already
running it creates no new one (so at most one is ever alive), and
otherwise it starts exactly one. -/
theorem cloud_connected_republishes_single_task (st : RegState) :
    (cloud_connected st).2.1 = st.devices.map (fun kv => Effect.publish kv.1 none) ∧
    (st.task = TaskStatus.running →
      cloud_connected st
        = (st, st.devices.map (fun kv => Effect.publish kv.1 none), false)) ∧
    (st.task ≠ TaskStatus.running →
      (cloud_connected st).2.2 = true ∧
      (cloud_connected st).1 = { st with task := TaskStatus.running }) := by
  by_cases h : st.task = TaskStatus.running <;>
    simp [cloud_connected, h]

/-- Witness for C9 at a one-device registry with no task yet. -/
theorem cloud_connected_republishes_single_task_witness :
    (cloud_connected stOn).2.1 = stOn.devices.map (fun kv => Effect.publish kv.1 none) ∧
    (stOn.task = TaskStatus.running →
      cloud_connected stOn
        = (stOn, stOn.devices.map (fun kv => Effect.publish kv.1 none), false)) ∧
    (stOn.task ≠ TaskStatus.running →
      (cloud_connected stOn).2.2 = true ∧
      (cloud_connected stOn).1 = { stOn with task := TaskStatus.running }) :=
  cloud_connected_republishes_single_task stOn

/-- Claim C7: `pow_helper` computes the eligible subset once and, when
it is empty, returns at once with no sends for any fuel/schedule; per
sweep, an eligible device with a truthy `online` whose `pow_ts`
deadline has elapsed gets exactly the zero-timeout cloud activation
send and `pow_ts = ts + dt`, while an offline device or an unelapsed
deadline yields no send and no change. -/
theorem pow_helper_eligible_and_sweep
    (pow : Nat → Option (Nat × Params)) (ds : List Device) (d : Device)
    (u dt : Nat) (p : Params) (ts fuel : Nat) (env : List (Bool × Nat)) (ov : OV)
    (hu : d.extra_uiid = some u) (hpow : pow u = some (dt, p))
    (hon : d.online = some ov) :
    (powEligible pow ds = [] → pow_helper pow fuel env ds = (ds, [], none)) ∧
    (ov = OV.tru → d.pow_ts.getD 0 ≤ ts →
      powSweepDev pow ts d
        = Except.ok ({ d with pow_ts := some (ts + dt) },
            [SendEff.cloudSend (some p) (some 0)])) ∧
    (ov ≠ OV.tru → powSweepDev pow ts d = Except.ok (d, [])) ∧
    (d.pow_ts.getD 0 > ts → powSweepDev pow ts d = Except.ok (d, [])) := by
  refine ⟨?_, ?_, ?_, ?_⟩
  · intro h
    simp [pow_helper, h]
  · intro h1 h2
    simp [powSweepDev, hon, hu, hpow, h1, not_lt.mpr h2]
  · intro h
    simp [powSweepDev, hon, h]
  · intro h
    simp [powSweepDev, hon, h]

/-- Witness for C7: an empty device list and the uiid-32 pow device at
time 5 with a 30-unit refresh. -/
theorem pow_helper_eligible_and_sweep_witness :
    (powEligible powTable [] = [] → pow_helper powTable 3 [(true, 5)] [] = ([], [], none)) ∧
    (OV.tru = OV.tru → devPow.pow_ts.getD 0 ≤ 5 →
      powSweepDev powTable 5 devPow
        = Except.ok ({ devPow with pow_ts := some (5 + 30) },
            [SendEff.cloudSend (some paramsSwitch) (some 0)])) ∧
    (OV.tru ≠ OV.tru → powSweepDev powTable 5 devPow = Except.ok (devPow, [])) ∧
    (devPow.pow_ts.getD 0 > 5 → powSweepDev powTable 5 devPow = Except.ok (devPow, [])) :=
  pow_helper_eligible_and_sweep powTable [] devPow 32 30 paramsSwitch 5 3 [(true, 5)]
    OV.tru (by decide) (by decide) (by decide)

/-- The just-in-time registration tail of `local_update` adds exactly
one entry, keyed by the provisional device's id, and publishes
`"add_entities"` exactly once, whatever the decoded params carry. -/
theorem localSetupNew_spec (setupDiy : LocalMsg → Device) (getSpec : Device → Nat)
    (st : RegState) (did : String) (msg : LocalMsg) (p : Params) (u : Nat)
    (hunk : dictGet st.devices (setupDiy msg).deviceid = none)
    (hext : (setupDiy msg).extra_uiid = some u) :
    (localSetupNew setupDiy getSpec st did msg p).st.devices.length
      = st.devices.length + 1 ∧
    (dictGet (localSetupNew setupDiy getSpec st did msg p).st.devices
        (setupDiy msg).deviceid).isSome = true ∧
    (localSetupNew setupDiy getSpec st did msg p).effects.countP
      (fun e => isAddEntities e) = 1 ∧
    (localSetupNew setupDiy getSpec st did msg p).err = none := by
  have hmd : (applyConfig st.config (setupDiy msg).deviceid (setupDiy msg)).deviceid
      = (setupDiy msg).deviceid := applyConfig_deviceid _ _ _
  have hme : (applyConfig st.config (setupDiy msg).deviceid (setupDiy msg)).extra_uiid
      = some u := by
    rw [applyConfig_extra_uiid]
    exact hext
  rcases hpo : p.online with _ | ov
  · simp [localSetupNew, setup_devices, localCommon, hpo, hme, hmd,
      dictGet_dictSet_self, length_dictSet_of_get_none, length_dictSet_of_get_some,
      isAddEntities, hunk]
  · cases ov <;>
      simp [localSetupNew, setup_devices, localCommon, hpo, hme, hmd,
        dictGet_dictSet_self, length_dictSet_of_get_none, length_dictSet_of_get_some,
        isAddEntities, hunk]

/-- Claim C6: a local message from an unknown device whose payload
decrypts with the configured key yields exactly one new registry entry
for that device id and exactly one `"add_entities"` publication, with
no raise.  `setup_diy` is an external collaborator assumed to keep the
message's device id and to stamp an `extra`/uiid onto the provisional
record. -/
theorem local_update_new_device_registers_once
    (decryptFn : LocalMsg → String → Option Params) (setupDiy : LocalMsg → Device)
    (getSpec : Device → Nat) (st : RegState) (msg : LocalMsg) (key : String)
    (p : Params) (u : Nat)
    (hunk : dictGet st.devices msg.deviceid = none)
    (hp : msg.params = none)
    (hkey : configKey st.config msg.deviceid = some key)
    (hdec : decryptFn msg key = some p)
    (hdiy : (setupDiy { msg with params := some p }).deviceid = msg.deviceid)
    (hext : (setupDiy { msg with params := some p }).extra_uiid = some u) :
    (local_update decryptFn setupDiy getSpec st msg).st.devices.length
      = st.devices.length + 1 ∧
    (dictGet (local_update decryptFn setupDiy getSpec st msg).st.devices
        msg.deviceid).isSome = true ∧
    (local_update decryptFn setupDiy getSpec st msg).effects.countP
      (fun e => isAddEntities e) = 1 ∧
    (local_update decryptFn setupDiy getSpec st msg).err = none := by
  have h1 : local_update decryptFn setupDiy getSpec st msg
      = localSetupNew setupDiy getSpec st msg.deviceid { msg with params := some p } p := by
    simp [local_update, hunk, hp, paramsFalsy, hkey, hdec]
  have h2 := localSetupNew_spec setupDiy getSpec st msg.deviceid
    { msg with params := some p } p u (by rw [hdiy]; exact hunk) hext
  rw [hdiy] at h2
  rw [h1]
  exact h2

/-- Witness for C6: the unknown `"B1"` broadcast decrypting to a switch
report, registered just-in-time. -/
theorem local_update_new_device_registers_once_witness :
    (local_update decryptOk diyBasic specTwo stCfg msgEnc).st.devices.length
      = stCfg.devices.length + 1 ∧
    (dictGet (local_update decryptOk diyBasic specTwo stCfg msgEnc).st.devices
        msgEnc.deviceid).isSome = true ∧
    (local_update decryptOk diyBasic specTwo stCfg msgEnc).effects.countP
      (fun e => isAddEntities e) = 1 ∧
    (local_update decryptOk diyBasic specTwo stCfg msgEnc).err = none :=
  local_update_new_device_registers_once decryptOk diyBasic specTwo stCfg msgEnc "k1"
    { others := [("switch", "on")] } 1 (by decide) (by decide) (by decide) (by decide)
    (by decide) (by decide)

end Sonoff
